import Mathlib

/-!
Shallow embedding of `src/jmh/qat-java-bench/monitor_qat.py`, the QAT
telemetry monitor.  The two Python functions `EnableTelemetry` and `pbar`
are modelled piecewise: tokenized command outputs become `List String`
inputs, the filesystem and command runner become explicit arguments, and
each Python exception site (IndexError, TypeError, NameError, ValueError)
becomes an `Except Unit` error.  Python integers are `Int`; the float
division `sum / n` followed by `round` is modelled as exact rational
division with round-half-to-even (`pyRoundDiv`), which agrees with the
CPython float behaviour on the counter value ranges involved.
-/

set_option maxRecDepth 2000

namespace MonitorQat

/-- Does the needle match at the head of the haystack (code-point lists)?
Helper for Python's substring containment operator. -/
def leadMatch : List Char → List Char → Bool
  | _, [] => true
  | [], _ :: _ => false
  | x :: xs, y :: ys => x == y && leadMatch xs ys

/-- Substring search on code-point lists: second argument occurs
contiguously inside the first. -/
def hasSub : List Char → List Char → Bool
  | [], nd => nd.isEmpty
  | x :: xs, nd => leadMatch (x :: xs) nd || hasSub xs nd

/-- Python's `needle in hay` on strings (substring containment). -/
def containsStr (hay needle : String) : Bool :=
  hasSub hay.data needle.data

/-- Python's slice `s[a:b]` on code points, clipping out-of-range bounds. -/
def pySlice (s : String) (a b : Nat) : String :=
  String.mk ((s.data.drop a).take (b - a))

/-- Accumulate a decimal numeral; `none` on a non-digit character. -/
def digitsVal (acc : Nat) : List Char → Option Nat
  | [] => some acc
  | c :: cs =>
    if c.isDigit then digitsVal (acc * 10 + (c.toNat - 48)) cs else none

/-- Python's `int(s)` on the plain decimal numerals (optionally
`-`-signed) that appear in counter dumps; `.error` models ValueError. -/
def pyInt (s : String) : Except Unit Int :=
  match s.data with
  | [] => .error ()
  | '-' :: cs =>
    match cs with
    | [] => .error ()
    | _ :: _ =>
      match digitsVal 0 cs with
      | some n => .ok (-(n : Int))
      | none => .error ()
  | cs =>
    match digitsVal 0 cs with
    | some n => .ok (n : Int)
    | none => .error ()

deriving instance DecidableEq for Except

/-- One entry of the Python `devices` list: the `(name, bus)` pair built
by `EnableTelemetry` (either component may still be the initial `None`). -/
abbrev Device := Option String × Option String

/-- The in-flight candidate of the device-building loop: the loop
variables `name`, `bus`, `telemetry_supported` (the Python `state`
variable is written but never read, so it is not modelled). -/
structure Candidate where
  name : Option String
  bus : Option String
  telemetry_supported : Bool

/-- Loop-variable values at lines 46-48: `name = None`, `bus = None`,
`telemetry_supported = False`. -/
def initCand : Candidate := ⟨none, none, false⟩

/-- The `while i < len(output_adf)` loop of `EnableTelemetry`
(lines 51-69): a token-driven state machine over the whitespace-split
`adf_ctl status` output.  `.error` models the IndexError raised by
`output_adf[i+1]` when a keyword is the final token. -/
def buildDevices : List String → Candidate → Except Unit (List Device)
  | [], _ => .ok []
  | tok :: rest, c =>
    if containsStr tok "qat_dev" then
      buildDevices rest { c with name := some tok }
    else if tok = "type:" then
      match rest.head? with
      | none => .error ()
      | some nxt =>
        buildDevices rest
          (if nxt = "4xxx," then { c with telemetry_supported := true } else c)
    else if tok = "bsf:" then
      match rest.head? with
      | none => .error ()
      | some nxt => buildDevices rest { c with bus := some (pySlice nxt 5 7) }
    else if tok = "state:" then
      match rest.head? with
      | none => .error ()
      | some nxt =>
        if nxt = "up" then
          if c.telemetry_supported then
            match buildDevices rest initCand with
            | .error e => .error e
            | .ok ds => .ok ((c.name, c.bus) :: ds)
          else buildDevices rest initCand
        else buildDevices rest initCand
    else buildDevices rest c

/-- Python string `<=` (lexicographic on code points), Bool-valued. -/
def charListLe : List Char → List Char → Bool
  | [], _ => true
  | _ :: _, [] => false
  | x :: xs, y :: ys =>
    if x < y then true else if y < x then false else charListLe xs ys

/-- Python `a <= b` on strings. -/
def pyStrLe (a b : String) : Bool := charListLe a.data b.data

/-- Python's `s.split(c)` for a one-character separator (empty pieces
kept), on code-point lists. -/
def splitCh (c : Char) : List Char → List (List Char)
  | [] => [[]]
  | x :: xs =>
    match splitCh c xs with
    | [] => [[]]
    | g :: gs => if x == c then [] :: g :: gs else (x :: g) :: gs

/-- The sort key of line 42: `x.split(':')[1]`; `none` models the
IndexError raised when the path contains no colon.  (The second tuple
component `16` of the Python key is a constant and cannot affect the
ordering.) -/
def sortKey? (s : String) : Option String :=
  ((splitCh ':' s.data).map String.mk).get? 1

/-- Stable insertion used to model Python's stable `sorted`: a new
element goes after every element whose key is `<=` its own key. -/
def insByKey (key : String → String) (x : String) : List String → List String
  | [] => [x]
  | y :: ys =>
    if pyStrLe (key y) (key x) then y :: insByKey key x ys else x :: y :: ys

/-- Line 42: `sorted(original_array, key=lambda x: (x.split(':')[1], 16))`.
Python's sort is stable, so a stable insertion sort by the same key
produces the identical list; `.error` models the IndexError in the key
lambda when some path has no colon. -/
def sortPaths (l : List String) : Except Unit (List String) :=
  if l.all (fun x => (sortKey? x).isSome) then
    .ok (l.foldl (fun acc x => insByKey (fun s => (sortKey? s).getD "") x acc) [])
  else .error ()

/-- Does `devices[i][1] in path` succeed and hold?  (`false` also covers
the never-reached `None` case; the TypeError on `None` is modelled in
`matchDevs`.) -/
def busHit (d : Device) (p : String) : Bool :=
  match d.2 with
  | some b => containsStr p b
  | none => false

/-- The inner `while i < len(devices)` loop of lines 80-83 for one path:
appends the path once per device whose bus id occurs in it.  `.error`
models the TypeError raised by `None in path` when a device's bus is
still `None`. -/
def matchDevs (p : String) : List Device → Except Unit (List String)
  | [] => .ok []
  | d :: ds =>
    match d.2 with
    | none => .error ()
    | some b =>
      (matchDevs p ds).map fun rest => if containsStr p b then p :: rest else rest

/-- The correlation loop of lines 79-84: builds `set_paths` by testing
every (path, device) pair in order. -/
def correlate (devs : List Device) : List String → Except Unit (List String)
  | [] => .ok []
  | p :: ps =>
    (matchDevs p devs).bind fun first =>
      (correlate devs ps).map fun rest => first ++ rest

/-- The enable loop of lines 91-98, returning the list of endpoints whose
control write was attempted.  `w p` says whether the `echo 1 > .../control`
for path `p` succeeds; on the first failure the Python `except: break`
stops the whole loop. -/
def enableWrites (w : String → Bool) : List String → List String
  | [] => []
  | p :: ps => if w p then p :: enableWrites w ps else [p]

/-- Output stream of the fatal message. -/
inductive OutChan where
  | stdout
  | stderr
deriving DecidableEq

/-- Observable outcome of one `EnableTelemetry` call.  `ok` carries the
rebuilt `devices`, `set_paths` and the control writes attempted; `fatal`
is the `print` + `quit()` path of lines 86-88 (message, stream, process
exit status); `exn` is an uncaught Python exception inside the call. -/
inductive DiscResult where
  | ok (devices : List Device) (set_paths : List String) (attempted : List String)
  | fatal (msg : String) (chan : OutChan) (code : Nat)
  | exn
deriving DecidableEq

/-- The literal printed at line 87. -/
def fatalMsg : String := "No telemetry supported QAT endpoints found... exiting."

/-- Lines 29-84 of `EnableTelemetry`: sort the telemetry paths, build the
device inventory, correlate.  `.error` is any uncaught Python exception
along the way (in source order: the sort-key IndexError of line 42, the
token IndexError of the device loop, the TypeError of the correlation
loop). -/
def discover (adf telem : List String) : Except Unit (List Device × List String) :=
  (sortPaths telem).bind fun output_telem =>
    (buildDevices adf initCand).bind fun devs =>
      ((correlate devs output_telem).map fun sp => (devs, sp))

/-- `EnableTelemetry` end to end: `adf` is the whitespace-split
`adf_ctl status` output, `telem` the whitespace-split `find` output and
`w` the success oracle for the control writes.  `print` writes to
standard output and `quit()` raises `SystemExit(None)`, so the fatal path
carries `.stdout` and exit status `0`. -/
def enableTelemetry (adf telem : List String) (w : String → Bool) : DiscResult :=
  match discover adf telem with
  | .error _ => .exn
  | .ok (devs, sp) =>
    if sp.length = 0 then .fatal fatalMsg .stdout 0
    else .ok devs sp (enableWrites w sp)

/-- Does discovery hand a device list to the render loop (so that render
ticks can happen at all)? -/
def rendersAfter : DiscResult → Bool
  | .ok _ _ _ => true
  | _ => false

/-- The local variables of `pbar` that the key/value parse loop assigns
(`latency`, `compression`, `decompression0`, ...): a partial map from
counter key to the last string value stored under it.  They are plain
Python locals, so they persist across loop iterations — across endpoints
and across render ticks — within one `pbar` call. -/
abbrev Env := String → Option String

/-- The variable environment at `pbar` entry: nothing assigned yet. -/
def emptyEnv : Env := fun _ => none

/-- The 21 counter keys recognised by the if/elif chain of lines 131-172,
in source order. -/
def dumpKeys : List String :=
  ["lat_acc_avg", "util_cpr0", "util_dcpr0", "util_dcpr1", "util_dcpr2",
   "util_pke0", "util_pke1", "util_pke2", "util_pke3", "util_pke4", "util_pke5",
   "util_cph0", "util_cph1", "util_cph2", "util_cph3",
   "util_ath0", "util_ath1", "util_ath2", "util_ath3",
   "util_ucs0", "util_ucs1"]

/-- The `while i < len(output)` parse loop of lines 128-173: every token
matching one of the 21 keys stores the following token under it (`i`
advances by one, so value tokens are themselves re-examined).  `.error`
models the IndexError of `output[i+1]` when a key is the final token. -/
def parseDump (env : Env) : List String → Except Unit Env
  | [] => .ok env
  | [t] => if t ∈ dumpKeys then .error () else .ok env
  | t :: v :: rest =>
    if t ∈ dumpKeys then
      parseDump (fun k => if k = t then some v else env k) (v :: rest)
    else parseDump env (v :: rest)

/-- Read a `pbar` local variable; `.error` models the NameError raised
when it was never assigned in this `pbar` call. -/
def getStr (env : Env) (k : String) : Except Unit String :=
  match env k with
  | some v => .ok v
  | none => .error ()

/-- Read a `pbar` local and convert with `int(...)`. -/
def getInt (env : Env) (k : String) : Except Unit Int := do
  let s ← getStr env k
  pyInt s

/-- `round(s / n)` for integer `s` and positive `n`, as exact rational
round-half-to-even (CPython's `round` on the float quotient agrees with
this on the counter magnitudes involved, where the float division is
exact at every tie). -/
def pyRoundDiv (s : Int) (n : Nat) : Int :=
  let q := Int.ediv s n
  let r := s - q * n
  if 2 * r < (n : Int) then q
  else if (n : Int) < 2 * r then q + 1
  else if Int.emod q 2 = 0 then q else q + 1

/-- The per-category aggregation pattern of lines 175-194: sum the raw
values; only when the sum is strictly positive divide by the sub-unit
count and round, otherwise keep the raw sum. -/
def aggregateUtil (vals : List Int) (n : Nat) : Int :=
  let s := vals.sum
  if 0 < s then pyRoundDiv s n else s

/-- The fields of the row written at line 198, in display order. -/
structure Row where
  name : String
  comp : String
  dcpr : String
  pke : String
  cph : String
  ath : String
  ucs : String
  lat : String
deriving DecidableEq

/-- Lines 175-198 for one endpoint: read the category sub-unit variables
(NameError when unassigned, ValueError when non-numeric), aggregate each
category, check `int(latency)`, and format the row of line 198 (the
conditional zero row of line 196 is overwritten by line 198 at the same
screen cell).  `compression` and `latency` are passed through as raw
strings. -/
def renderRow (env : Env) (name? : Option String) : Except Unit Row := do
  let d0 ← getInt env "util_dcpr0"
  let d1 ← getInt env "util_dcpr1"
  let d2 ← getInt env "util_dcpr2"
  let p0 ← getInt env "util_pke0"
  let p1 ← getInt env "util_pke1"
  let p2 ← getInt env "util_pke2"
  let p3 ← getInt env "util_pke3"
  let p4 ← getInt env "util_pke4"
  let p5 ← getInt env "util_pke5"
  let c0 ← getInt env "util_cph0"
  let c1 ← getInt env "util_cph1"
  let c2 ← getInt env "util_cph2"
  let c3 ← getInt env "util_cph3"
  let a0 ← getInt env "util_ath0"
  let a1 ← getInt env "util_ath1"
  let a2 ← getInt env "util_ath2"
  let a3 ← getInt env "util_ath3"
  let u0 ← getInt env "util_ucs0"
  let u1 ← getInt env "util_ucs1"
  let latS ← getStr env "lat_acc_avg"
  let _ ← pyInt latS
  let compS ← getStr env "util_cpr0"
  let nm ← (match name? with
    | some s => Except.ok s
    | none => Except.error ())
  pure { name := nm, comp := compS,
         dcpr := toString (aggregateUtil [d0, d1, d2] 3),
         pke := toString (aggregateUtil [p0, p1, p2, p3, p4, p5] 6),
         cph := toString (aggregateUtil [c0, c1, c2, c3] 4),
         ath := toString (aggregateUtil [a0, a1, a2, a3] 4),
         ucs := toString (aggregateUtil [u0, u1] 2),
         lat := latS }

/-- One iteration of the `for device in devices` loop for one endpoint:
parse its `device_data` dump into the (persistent) variable environment,
then compute its row. -/
def stepEndpoint (env : Env) (nm : Option String) (dump : List String) :
    Except Unit (Row × Env) := do
  let env' ← parseDump env dump
  let row ← renderRow env' nm
  pure (row, env')

/-- The whole `for device in devices` loop of one render tick, threading
the variable environment from endpoint to endpoint.  The Bool records
whether an exception aborted the loop (the bare `except: break` of line
211 then ends `pbar`, so later endpoints produce no rows). -/
def renderTickAux (env : Env) : List (Option String × List String) → List Row × Env × Bool
  | [] => ([], env, false)
  | (nm, d) :: rest =>
    match stepEndpoint env nm d with
    | .error _ => ([], env, true)
    | .ok (row, env') =>
      let r := renderTickAux env' rest
      (row :: r.1, r.2.1, r.2.2)

/-- One render tick: the rows formatted, and whether the tick aborted. -/
def renderTick (env : Env) (l : List (Option String × List String)) : List Row × Bool :=
  ((renderTickAux env l).1, (renderTickAux env l).2.2)

/-- The positional pairing of lines 112-115: the i-th device record is
rendered against `set_paths[count]` with `count = i`.  `.error` models
the IndexError when `devices` is longer than `set_paths`. -/
def tickInputs : List Device → List String → Except Unit (List (Option String × String))
  | [], _ => .ok []
  | _ :: _, [] => .error ()
  | d :: ds, p :: ps => (tickInputs ds ps).map fun rest => (d.1, p) :: rest

/-- Did an `Except` computation raise? -/
def isErr {α : Type} : Except Unit α → Bool
  | .error _ => true
  | .ok _ => false

/-- The row produced by one endpoint step, if any. -/
def rowOf : Except Unit (Row × Env) → Option Row
  | .ok (r, _) => some r
  | .error _ => none

/-- The paths contributed to `set_paths` by one path: one copy per
matching device. -/
def corrMatches (devs : List Device) (p : String) : List String :=
  (devs.filter (fun d => busHit d p)).map (fun _ => p)

/-- The exit behaviour claimed for discovery failure: a message on the
standard error stream and a non-zero exit status. -/
def claimC1Exit : DiscResult → Prop
  | .fatal _ ch code => ch = .stderr ∧ code ≠ 0
  | _ => False

/-- A control-write oracle failing exactly on the endpoint `"A"`. -/
def failOnA : String → Bool := fun p => p != "A"

/-- A complete `device_data` dump: every expected key followed by a plain
numeral; the decompression-unit-0 entry carries `v`. -/
def fullDump (v : String) : List String :=
  ["lat_acc_avg", "0", "util_cpr0", "42", "util_dcpr0", v, "util_dcpr1", "0",
   "util_dcpr2", "0", "util_pke0", "0", "util_pke1", "0", "util_pke2", "0",
   "util_pke3", "0", "util_pke4", "0", "util_pke5", "0", "util_cph0", "0",
   "util_cph1", "0", "util_cph2", "0", "util_cph3", "0", "util_ath0", "0",
   "util_ath1", "0", "util_ath2", "0", "util_ath3", "0", "util_ucs0", "0",
   "util_ucs1", "0"]

/-- A dump whose `util_dcpr0` entry is missing entirely. -/
def partialDump : List String :=
  ["lat_acc_avg", "0", "util_cpr0", "42", "util_dcpr1", "0",
   "util_dcpr2", "0", "util_pke0", "0", "util_pke1", "0", "util_pke2", "0",
   "util_pke3", "0", "util_pke4", "0", "util_pke5", "0", "util_cph0", "0",
   "util_cph1", "0", "util_cph2", "0", "util_cph3", "0", "util_ath0", "0",
   "util_ath1", "0", "util_ath2", "0", "util_ath3", "0", "util_ucs0", "0",
   "util_ucs1", "0"]

/-- An environment with every variable bound to the numeral `"7"`. -/
def constEnv : Env := fun _ => some "7"

/- ### Helper lemmas -/

theorem bind_ok {α β : Type} {x : Except Unit α} {f : α → Except Unit β} {r : β}
    (h : (x >>= f) = .ok r) : ∃ a, x = .ok a ∧ f a = .ok r := by
  cases x with
  | ok a => exact ⟨a, rfl, h⟩
  | error e => exact absurd h (by simp [Bind.bind, Except.bind])

theorem getStr_ok {env : Env} {k v : String} (h : getStr env k = .ok v) :
    env k = some v := by
  unfold getStr at h
  cases he : env k with
  | none => rw [he] at h; exact absurd h (by simp)
  | some s => rw [he] at h; cases h; rfl

theorem exceptBind_okArg {α β : Type} (a : α) (f : α → Except Unit β) :
    (Except.ok a : Except Unit α).bind f = f a := rfl

theorem exceptBind_errArg {α β : Type} (e : Unit) (f : α → Except Unit β) :
    (Except.error e : Except Unit α).bind f = Except.error e := rfl

/-- Unfolding `discover` once sorting and inventory building are known. -/
theorem discover_eq {adf telem : List String} {srt : List String} {devs : List Device}
    (hs : sortPaths telem = .ok srt) (hb : buildDevices adf initCand = .ok devs) :
    discover adf telem = Except.map (fun sp => (devs, sp)) (correlate devs srt) := by
  unfold discover
  rw [hs, exceptBind_okArg, hb, exceptBind_okArg]

/-- Unfolding `enableTelemetry` once discovery is known to succeed. -/
theorem enableTelemetry_ok_case {adf telem : List String} {w : String → Bool}
    {ds : List Device} {sp' : List String}
    (hd : discover adf telem = .ok (ds, sp')) :
    enableTelemetry adf telem w =
      if sp'.length = 0 then .fatal fatalMsg .stdout 0
      else .ok ds sp' (enableWrites w sp') := by
  unfold enableTelemetry
  rw [hd]

/- ### Claim C1 -/

/-- C1 (amended): whenever the discovery pipeline correlates zero
endpoints, `EnableTelemetry` takes the `print` + `quit()` path of lines
86-88: the process terminates with the human-readable message on
standard output and exit status 0 (`quit()` raises `SystemExit(None)`),
and no device list reaches the render loop, so no render ticks are
produced. -/
theorem claim_C1_amended (adf telem : List String) (w : String → Bool)
    (devs : List Device) (srt : List String)
    (hs : sortPaths telem = .ok srt)
    (hb : buildDevices adf initCand = .ok devs)
    (hc : correlate devs srt = .ok []) :
    enableTelemetry adf telem w = .fatal fatalMsg .stdout 0 ∧
    rendersAfter (enableTelemetry adf telem w) = false := by
  have hd : discover adf telem = .ok (devs, []) := by
    rw [discover_eq hs hb, hc]
    rfl
  have hmain : enableTelemetry adf telem w = .fatal fatalMsg .stdout 0 := by
    rw [enableTelemetry_ok_case hd]
    rfl
  exact ⟨hmain, by rw [hmain]; rfl⟩

/-- Witness for C1: a concrete single-device status output whose bus id
`6b` matches no telemetry path, so correlation is empty and discovery is
fatal. -/
theorem claim_C1_witness :
    enableTelemetry ["qat_dev0", "type:", "4xxx,", "bsf:", "0000:6b:00.0", "state:", "up"]
        ["/sys/devices/a:zz/telemetry"] (fun _ => true) = .fatal fatalMsg .stdout 0 ∧
    rendersAfter (enableTelemetry
        ["qat_dev0", "type:", "4xxx,", "bsf:", "0000:6b:00.0", "state:", "up"]
        ["/sys/devices/a:zz/telemetry"] (fun _ => true)) = false :=
  claim_C1_amended _ _ _ [(some "qat_dev0", some "6b")] ["/sys/devices/a:zz/telemetry"]
    (by decide) (by decide) (by decide)

/-- Counterexample to C1 as stated: on empty discovery inputs the zero-
endpoint fatal path prints on standard output and exits with status 0,
not on standard error with a non-zero status. -/
theorem claim_C1_counterexample :
    enableTelemetry [] [] (fun _ => true) = .fatal fatalMsg .stdout 0 ∧
    ¬ claimC1Exit (enableTelemetry [] [] (fun _ => true)) := by
  refine ⟨rfl, fun h => ?_⟩
  have h' : claimC1Exit (.fatal fatalMsg .stdout 0) := h
  exact absurd h'.1 (by decide)

/- Step lemmas for the device-building state machine. -/

theorem bd_nil (c : Candidate) : buildDevices [] c = .ok [] := rfl

theorem bd_name (tok : String) (rest : List String) (c : Candidate)
    (h : containsStr tok "qat_dev" = true) :
    buildDevices (tok :: rest) c = buildDevices rest { c with name := some tok } := by
  simp only [buildDevices]
  rw [if_pos h]

theorem bd_skip (tok : String) (rest : List String) (c : Candidate)
    (h0 : containsStr tok "qat_dev" = false)
    (h1 : tok ≠ "type:") (h2 : tok ≠ "bsf:") (h3 : tok ≠ "state:") :
    buildDevices (tok :: rest) c = buildDevices rest c := by
  simp only [buildDevices]
  rw [if_neg (by simp [h0]), if_neg h1, if_neg h2, if_neg h3]

theorem bd_type (nxt : String) (rest : List String) (c : Candidate) :
    buildDevices ("type:" :: nxt :: rest) c =
      buildDevices (nxt :: rest)
        (if nxt = "4xxx," then { c with telemetry_supported := true } else c) := rfl

theorem bd_bsf (nxt : String) (rest : List String) (c : Candidate) :
    buildDevices ("bsf:" :: nxt :: rest) c =
      buildDevices (nxt :: rest) { c with bus := some (pySlice nxt 5 7) } := rfl

theorem bd_state (nxt : String) (rest : List String) (c : Candidate) :
    buildDevices ("state:" :: nxt :: rest) c =
      if nxt = "up" then
        if c.telemetry_supported then
          match buildDevices (nxt :: rest) initCand with
          | .error e => .error e
          | .ok ds => .ok ((c.name, c.bus) :: ds)
        else buildDevices (nxt :: rest) initCand
      else buildDevices (nxt :: rest) initCand := rfl

/- ### Claim C3 -/

/-- C3: a status-output stream holding one candidate with the supported
type token `4xxx,`, a `bsf:` token followed by a bus/slot/function value,
and a `state: up` finaliser yields exactly one inventory record, and its
bus id is the Python slice `[5:7]` of the token after `bsf:` — the
characters at 0-indexed offsets 5 and 6. -/
theorem claim_C3_single_record (nm bs : String)
    (h1 : containsStr nm "qat_dev" = true)
    (h2 : containsStr bs "qat_dev" = false)
    (h3 : bs ≠ "type:") (h4 : bs ≠ "bsf:") (h5 : bs ≠ "state:")
    (h6 : 7 ≤ bs.length) :
    buildDevices [nm, "type:", "4xxx,", "bsf:", bs, "state:", "up"] initCand =
      .ok [(some nm, some (pySlice bs 5 7))] ∧
    (pySlice bs 5 7).data = (bs.data.drop 5).take 2 ∧
    (pySlice bs 5 7).length = 2 := by
  refine ⟨?_, rfl, ?_⟩
  · rw [bd_name _ _ _ h1, bd_type, bd_skip _ _ _ (by decide) (by decide) (by decide) (by decide),
      bd_bsf, bd_skip _ _ _ h2 h3 h4 h5, bd_state]
    rfl
  · have h6' : 7 ≤ bs.data.length := h6
    show ((bs.data.drop 5).take 2).length = 2
    rw [List.length_take, List.length_drop]
    omega

/-- Witness for C3 on a realistic `bsf:` value. -/
theorem claim_C3_witness :
    buildDevices ["qat_dev0", "type:", "4xxx,", "bsf:", "0000:6b:00.0", "state:", "up"]
        initCand = .ok [(some "qat_dev0", some (pySlice "0000:6b:00.0" 5 7))] ∧
    (pySlice "0000:6b:00.0" 5 7).data = ("0000:6b:00.0".data.drop 5).take 2 ∧
    (pySlice "0000:6b:00.0" 5 7).length = 2 :=
  claim_C3_single_record "qat_dev0" "0000:6b:00.0" (by decide) (by decide)
    (by decide) (by decide) (by decide) (by decide)

/- ### Claim C8 -/

/-- C8: when the token after `state:` is any plain value other than
`up`, the candidate produces no inventory record even though its type
marked it telemetry-capable. -/
theorem claim_C8_no_record (nm bs st : String)
    (h1 : containsStr nm "qat_dev" = true)
    (h2 : containsStr bs "qat_dev" = false)
    (h3 : bs ≠ "type:") (h4 : bs ≠ "bsf:") (h5 : bs ≠ "state:")
    (h6 : st ≠ "up")
    (h7 : containsStr st "qat_dev" = false)
    (h8 : st ≠ "type:") (h9 : st ≠ "bsf:") (h10 : st ≠ "state:") :
    buildDevices [nm, "type:", "4xxx,", "bsf:", bs, "state:", st] initCand = .ok [] := by
  rw [bd_name _ _ _ h1, bd_type, bd_skip _ _ _ (by decide) (by decide) (by decide) (by decide),
    bd_bsf, bd_skip _ _ _ h2 h3 h4 h5, bd_state, if_neg h6,
    bd_skip _ _ _ h7 h8 h9 h10, bd_nil]

/-- Witness for C8 with state `down`. -/
theorem claim_C8_witness :
    buildDevices ["qat_dev0", "type:", "4xxx,", "bsf:", "0000:6b:00.0", "state:", "down"]
        initCand = .ok [] :=
  claim_C8_no_record "qat_dev0" "0000:6b:00.0" "down" (by decide) (by decide) (by decide)
    (by decide) (by decide) (by decide) (by decide) (by decide) (by decide) (by decide)

/- ### Claim C4 -/

/-- C4 (amended): an enable-write failure leaves the endpoint set
untouched (the `ok` outcome of discovery carries the same `devices` and
`set_paths` whatever the write oracle does), but it does NOT leave the
remaining writes unaffected: the `except: break` of line 98 abandons the
loop at the first failing endpoint, so writes to subsequent endpoints
are never attempted. -/
theorem claim_C4_amended (w : String → Bool) (xs : List String) (y : String)
    (zs : List String)
    (hxs : ∀ x ∈ xs, w x = true) (hy : w y = false) :
    enableWrites w (xs ++ y :: zs) = xs ++ [y] ∧
    (∀ adf telem w2 devs sp a, enableTelemetry adf telem w = .ok devs sp a →
      ∃ a2, enableTelemetry adf telem w2 = .ok devs sp a2) := by
  constructor
  · induction xs with
    | nil => simp [enableWrites, hy]
    | cons x xs ih =>
      have hx : w x = true := hxs x (by simp)
      have ih' := ih (fun t ht => hxs t (by simp [ht]))
      simp [enableWrites, hx, ih']
  · intro adf telem w2 devs sp a h
    cases hd : discover adf telem with
    | error e =>
      rw [show enableTelemetry adf telem w = .exn from by unfold enableTelemetry; rw [hd]] at h
      exact absurd h (by simp)
    | ok pr =>
      obtain ⟨ds, sp'⟩ := pr
      rw [enableTelemetry_ok_case hd] at h
      rw [enableTelemetry_ok_case hd]
      by_cases hl : sp'.length = 0
      · rw [if_pos hl] at h
        exact absurd h (by simp)
      · rw [if_neg hl] at h
        rw [if_neg hl]
        injection h with h1 h2 h3
        subst h1; subst h2
        exact ⟨_, rfl⟩

/-- Witness for C4: the oracle failing on `"A"` stops before `"C"`. -/
theorem claim_C4_witness :
    enableWrites failOnA (["B1"] ++ "A" :: ["C"]) = ["B1"] ++ ["A"] ∧
    (∀ adf telem w2 devs sp a, enableTelemetry adf telem failOnA = .ok devs sp a →
      ∃ a2, enableTelemetry adf telem w2 = .ok devs sp a2) :=
  claim_C4_amended failOnA ["B1"] "A" ["C"] (by decide) (by decide)

/-- Counterexample to C4 as stated: with endpoint set `["A", "B"]` and
the write to `"A"` failing, the write to the subsequent endpoint `"B"`
is never attempted. -/
theorem claim_C4_counterexample :
    enableWrites failOnA ["A", "B"] = ["A"] ∧
    "B" ∉ enableWrites failOnA ["A", "B"] := by
  refine ⟨by decide, ?_⟩
  intro hmem
  rw [show enableWrites failOnA ["A", "B"] = ["A"] from by decide] at hmem
  simp at hmem

/-- Counterpart of `enableTelemetry_ok_case` for failed discovery. -/
theorem enableTelemetry_err_case {adf telem : List String} {w : String → Bool}
    {e : Unit} (hd : discover adf telem = .error e) :
    enableTelemetry adf telem w = .exn := by
  unfold enableTelemetry
  rw [hd]

/- ### Claim C2 -/

/-- C2 (amended): per category the aggregate equals 0 when the raw sum is
0 and equals the half-to-even rounded quotient sum/N when the sum is
positive; but for a negative sum the `if > 0` guard of lines 176-194
skips the division, so the raw sum itself is reported.  The latency field
of the row is always the raw parsed string, unrounded. -/
theorem claim_C2_amended (vals : List Int) (n : Nat) :
    (vals.sum = 0 → aggregateUtil vals n = 0) ∧
    (0 < vals.sum → aggregateUtil vals n = pyRoundDiv vals.sum n) ∧
    (vals.sum < 0 → aggregateUtil vals n = vals.sum) ∧
    (∀ env nm r, renderRow env nm = .ok r → env "lat_acc_avg" = some r.lat) := by
  refine ⟨?_, ?_, ?_, ?_⟩
  · intro h
    simp [aggregateUtil, h]
  · intro h
    simp [aggregateUtil, h]
  · intro h
    have h' : ¬ (0 < vals.sum) := by omega
    simp [aggregateUtil, h']
  · intro env nm r h
    unfold renderRow at h
    obtain ⟨d0, hd0, h⟩ := bind_ok h
    obtain ⟨d1, hd1, h⟩ := bind_ok h
    obtain ⟨d2, hd2, h⟩ := bind_ok h
    obtain ⟨p0, hp0, h⟩ := bind_ok h
    obtain ⟨p1, hp1, h⟩ := bind_ok h
    obtain ⟨p2, hp2, h⟩ := bind_ok h
    obtain ⟨p3, hp3, h⟩ := bind_ok h
    obtain ⟨p4, hp4, h⟩ := bind_ok h
    obtain ⟨p5, hp5, h⟩ := bind_ok h
    obtain ⟨c0, hc0, h⟩ := bind_ok h
    obtain ⟨c1, hc1, h⟩ := bind_ok h
    obtain ⟨c2, hc2, h⟩ := bind_ok h
    obtain ⟨c3, hc3, h⟩ := bind_ok h
    obtain ⟨a0, ha0, h⟩ := bind_ok h
    obtain ⟨a1, ha1, h⟩ := bind_ok h
    obtain ⟨a2, ha2, h⟩ := bind_ok h
    obtain ⟨a3, ha3, h⟩ := bind_ok h
    obtain ⟨u0, hu0, h⟩ := bind_ok h
    obtain ⟨u1, hu1, h⟩ := bind_ok h
    obtain ⟨latS, hlat, h⟩ := bind_ok h
    obtain ⟨lv, hlv, h⟩ := bind_ok h
    obtain ⟨compS, hcomp, h⟩ := bind_ok h
    obtain ⟨nm2, hnm2, h⟩ := bind_ok h
    injection h with hr
    rw [← hr]
    exact getStr_ok hlat

/-- Witness for C2: the spec's own rounding example, sum 5 over 3
sub-units. -/
theorem claim_C2_witness :
    (0 < ([5, 0, 0] : List Int).sum) ∧
    aggregateUtil [5, 0, 0] 3 = pyRoundDiv ([5, 0, 0] : List Int).sum 3 ∧
    aggregateUtil [5, 0, 0] 3 = 2 :=
  ⟨by decide, (claim_C2_amended [5, 0, 0] 3).2.1 (by decide), by decide⟩

/-- Counterexample to C2 as stated: for the raw values (-3, 0, 0) the sum
is non-zero, yet the aggregate is the raw sum -3 and not the rounded
quotient -1. -/
theorem claim_C2_counterexample :
    ([-3, 0, 0] : List Int).sum ≠ 0 ∧
    aggregateUtil [-3, 0, 0] 3 = -3 ∧
    pyRoundDiv ([-3, 0, 0] : List Int).sum 3 = -1 ∧
    aggregateUtil [-3, 0, 0] 3 ≠ pyRoundDiv ([-3, 0, 0] : List Int).sum 3 := by
  decide

/- ### Claim C6 -/

/-- C6 (amended): a candidate reaching `state: up` with a supported type
but no `bsf:` token IS appended to the inventory, with bus id `None`.
When the telemetry path list is non-empty, the correlation loop then
evaluates `None in path` and raises a TypeError, crashing the discovery
cycle (uncaught at startup, swallowed into loop exit during periodic
rediscovery); only with an empty path list does the cycle instead reach
the zero-endpoint fatal exit. -/
theorem claim_C6_amended (nm : String) (paths : List String) (w : String → Bool)
    (h1 : containsStr nm "qat_dev" = true)
    (q : String) (qs : List String)
    (hs : sortPaths paths = .ok (q :: qs)) :
    buildDevices [nm, "type:", "4xxx,", "state:", "up"] initCand = .ok [(some nm, none)] ∧
    enableTelemetry [nm, "type:", "4xxx,", "state:", "up"] paths w = .exn ∧
    enableTelemetry [nm, "type:", "4xxx,", "state:", "up"] [] w = .fatal fatalMsg .stdout 0 := by
  have hb : buildDevices [nm, "type:", "4xxx,", "state:", "up"] initCand =
      .ok [(some nm, none)] := by
    rw [bd_name _ _ _ h1, bd_type,
      bd_skip _ _ _ (by decide) (by decide) (by decide) (by decide), bd_state]
    rfl
  refine ⟨hb, ?_, ?_⟩
  · have hd : discover [nm, "type:", "4xxx,", "state:", "up"] paths = .error () := by
      rw [discover_eq hs hb]
      rfl
    exact enableTelemetry_err_case hd
  · have hd0 : discover [nm, "type:", "4xxx,", "state:", "up"] [] =
        .ok ([(some nm, none)], []) := by
      rw [discover_eq (rfl : sortPaths [] = .ok []) hb]
      rfl
    rw [enableTelemetry_ok_case hd0]
    rfl

/-- Witness for C6 on a concrete no-`bsf:` candidate against a concrete
telemetry path and against the empty path list. -/
theorem claim_C6_witness :
    buildDevices ["qat_dev0", "type:", "4xxx,", "state:", "up"] initCand =
      .ok [(some "qat_dev0", none)] ∧
    enableTelemetry ["qat_dev0", "type:", "4xxx,", "state:", "up"]
      ["/sys/devices/pci0000:00/d/telemetry"] (fun _ => true) = .exn ∧
    enableTelemetry ["qat_dev0", "type:", "4xxx,", "state:", "up"] []
      (fun _ => true) = .fatal fatalMsg .stdout 0 :=
  claim_C6_amended "qat_dev0" ["/sys/devices/pci0000:00/d/telemetry"] (fun _ => true)
    (by decide) "/sys/devices/pci0000:00/d/telemetry" [] (by decide)

/-- Counterexample to C6 as stated: with one telemetry path present, the
discovery cycle does not complete normally with the bus-less candidate
excluded — it crashes with a TypeError (`.exn`). -/
theorem claim_C6_counterexample :
    enableTelemetry ["qat_dev0", "type:", "4xxx,", "state:", "up"]
      ["/sys/devices/pci0000:00/d/telemetry"] (fun _ => true) = .exn := by
  decide

/- ### Claim C5 -/

/- Step lemmas for the render-tick loop. -/

theorem rta_nil (env : Env) : renderTickAux env [] = ([], env, false) := rfl

theorem rta_cons_err (env : Env) (nm : Option String) (d : List String)
    (rest : List (Option String × List String))
    (h : stepEndpoint env nm d = .error ()) :
    renderTickAux env ((nm, d) :: rest) = ([], env, true) := by
  simp only [renderTickAux]
  rw [h]

theorem rta_cons_ok (env : Env) (nm : Option String) (d : List String)
    (rest : List (Option String × List String)) (row : Row) (env' : Env)
    (h : stepEndpoint env nm d = .ok (row, env')) :
    renderTickAux env ((nm, d) :: rest) =
      (row :: (renderTickAux env' rest).1,
       (renderTickAux env' rest).2.1, (renderTickAux env' rest).2.2) := by
  simp only [renderTickAux]
  rw [h]

theorem rta_append (l1 : List (Option String × List String)) :
    ∀ (env : Env) (l2 : List (Option String × List String)),
    (renderTickAux env l1).2.2 = false →
    renderTickAux env (l1 ++ l2) =
      ((renderTickAux env l1).1 ++
        (renderTickAux (renderTickAux env l1).2.1 l2).1,
       (renderTickAux (renderTickAux env l1).2.1 l2).2.1,
       (renderTickAux (renderTickAux env l1).2.1 l2).2.2) := by
  induction l1 with
  | nil =>
    intro env l2 h
    simp [rta_nil]
  | cons pr tl ih =>
    intro env l2 h
    obtain ⟨nm, d⟩ := pr
    cases hstep : stepEndpoint env nm d with
    | error e =>
      cases e
      rw [rta_cons_err _ _ _ _ hstep] at h
      simp at h
    | ok pr2 =>
      obtain ⟨row, env'⟩ := pr2
      rw [rta_cons_ok _ _ _ _ _ _ hstep] at h
      rw [List.cons_append, rta_cons_ok _ _ _ _ _ _ hstep,
        rta_cons_ok _ _ _ _ _ _ hstep, ih env' l2 h]
      simp

/-- C5 (amended): when one endpoint's render raises (missing counter key
never previously bound, non-numeric value, or a key as final dump token),
the failure is NOT confined to that endpoint's row: the bare
`except: break` of lines 211-212 aborts the tick, keeping only the rows
of the endpoints already rendered, producing nothing for the failing
endpoint and for every subsequent endpoint, and ends the render loop. -/
theorem claim_C5_amended (env : Env) (pre : List (Option String × List String))
    (nm : Option String) (d : List String)
    (rest : List (Option String × List String))
    (h1 : (renderTickAux env pre).2.2 = false)
    (h2 : isErr (stepEndpoint (renderTickAux env pre).2.1 nm d) = true) :
    renderTick env (pre ++ (nm, d) :: rest) = ((renderTickAux env pre).1, true) := by
  have hstep : stepEndpoint (renderTickAux env pre).2.1 nm d = .error () := by
    cases hx : stepEndpoint (renderTickAux env pre).2.1 nm d with
    | error e => cases e; rfl
    | ok v => rw [hx] at h2; simp [isErr] at h2
  unfold renderTick
  rw [rta_append pre env ((nm, d) :: rest) h1, rta_cons_err _ _ _ _ hstep]
  simp

/-- Witness for C5: on the very first tick the first endpoint's dump
misses `util_dcpr0`, so the whole tick aborts and the complete dump of
the second endpoint is never rendered. -/
theorem claim_C5_witness :
    renderTick emptyEnv ([] ++ (some "qat_dev0", partialDump) ::
        [(some "qat_dev1", fullDump "7")]) =
      ((renderTickAux emptyEnv []).1, true) :=
  claim_C5_amended emptyEnv [] (some "qat_dev0") partialDump
    [(some "qat_dev1", fullDump "7")] (by decide) (by decide)

/-- Counterexample to C5 as stated: the missing-key failure of the first
endpoint suppresses the second endpoint's row as well — the tick yields
no rows at all and aborts, though the second endpoint alone would render
fine. -/
theorem claim_C5_counterexample :
    renderTick emptyEnv [(some "qat_dev0", partialDump),
      (some "qat_dev1", fullDump "7")] = ([], true) ∧
    (renderTick emptyEnv [(some "qat_dev1", fullDump "7")]).2 = false ∧
    (renderTick emptyEnv [(some "qat_dev1", fullDump "7")]).1.length = 1 := by
  refine ⟨?_, by decide, by decide⟩
  decide

/- ### Claim C7 -/

/- Step lemmas for the dump parser. -/

theorem pd_last_key (env : Env) {t : String} (h : t ∈ dumpKeys) :
    parseDump env [t] = .error () := by
  simp only [parseDump]
  rw [if_pos h]

theorem pd_last_skip (env : Env) {t : String} (h : t ∉ dumpKeys) :
    parseDump env [t] = .ok env := by
  simp only [parseDump]
  rw [if_neg h]

theorem pd_key (env : Env) {t : String} (v : String) (rest : List String)
    (h : t ∈ dumpKeys) :
    parseDump env (t :: v :: rest) =
      parseDump (fun k => if k = t then some v else env k) (v :: rest) := by
  simp only [parseDump]
  rw [if_pos h]

theorem pd_skip (env : Env) {t : String} (v : String) (rest : List String)
    (h : t ∉ dumpKeys) :
    parseDump env (t :: v :: rest) = parseDump env (v :: rest) := by
  simp only [parseDump]
  rw [if_neg h]

/-- A key that never occurs in the dump keeps its previous value: this is
the stale-variable channel of the `pbar` locals. -/
theorem parse_noKey {k : String} : ∀ (D : List String) (env e : Env),
    k ∉ D → parseDump env D = .ok e → e k = env k := by
  intro D
  induction D with
  | nil =>
    intro env e _ h
    have h' : (Except.ok env : Except Unit Env) = .ok e := h
    injection h' with h2
    rw [← h2]
  | cons t rest ih =>
    intro env e hk h
    have hkr : k ∉ rest := fun hx => hk (List.mem_cons_of_mem _ hx)
    have hkt : k ≠ t := fun hx => hk (hx ▸ List.mem_cons_self _ _)
    cases rest with
    | nil =>
      by_cases ht : t ∈ dumpKeys
      · rw [pd_last_key env ht] at h
        simp at h
      · rw [pd_last_skip env ht] at h
        have h' : (Except.ok env : Except Unit Env) = .ok e := h
        injection h' with h2
        rw [← h2]
    | cons v rest2 =>
      by_cases ht : t ∈ dumpKeys
      · rw [pd_key env v rest2 ht] at h
        have := ih (fun kk => if kk = t then some v else env kk) e hkr h
        rw [this]
        simp [hkt]
      · rw [pd_skip env v rest2 ht] at h
        exact ih env e hkr h

/-- The value a parsed key ends up with depends only on the dump, never
on the incoming environment, provided the key occurs in the dump. -/
theorem parse_agree {k : String} : ∀ (D : List String) (env1 env2 e1 e2 : Env),
    parseDump env1 D = .ok e1 → parseDump env2 D = .ok e2 →
    k ∈ D → k ∈ dumpKeys → e1 k = e2 k := by
  intro D
  induction D with
  | nil =>
    intro env1 env2 e1 e2 _ _ hk _
    exact absurd hk (List.not_mem_nil k)
  | cons t rest ih =>
    intro env1 env2 e1 e2 h1 h2 hk hkd
    cases rest with
    | nil =>
      by_cases ht : t ∈ dumpKeys
      · rw [pd_last_key env1 ht] at h1
        simp at h1
      · have hkt : k = t := by
          rcases List.mem_cons.mp hk with h | h
          · exact h
          · exact absurd h (List.not_mem_nil k)
        rw [hkt] at hkd
        exact absurd hkd ht
    | cons v rest2 =>
      by_cases ht : t ∈ dumpKeys
      · rw [pd_key env1 v rest2 ht] at h1
        rw [pd_key env2 v rest2 ht] at h2
        by_cases hkr : k ∈ (v :: rest2)
        · exact ih _ _ _ _ h1 h2 hkr hkd
        · have hkt : k = t := by
            rcases List.mem_cons.mp hk with h | h
            · exact h
            · exact absurd h hkr
          rw [parse_noKey _ _ _ hkr h1, parse_noKey _ _ _ hkr h2]
          simp [hkt]
      · rw [pd_skip env1 v rest2 ht] at h1
        rw [pd_skip env2 v rest2 ht] at h2
        have hkt : k ≠ t := fun hx => ht (hx ▸ hkd)
        have hkr : k ∈ (v :: rest2) := by
          rcases List.mem_cons.mp hk with h | h
          · exact absurd h hkt
          · exact h
        exact ih _ _ _ _ h1 h2 hkr hkd

/-- Whether the parse loop raises depends only on the dump, not on the
incoming environment. -/
theorem parse_err_indep : ∀ (D : List String) (env1 env2 : Env),
    isErr (parseDump env1 D) = isErr (parseDump env2 D) := by
  intro D
  induction D with
  | nil => intro env1 env2; rfl
  | cons t rest ih =>
    intro env1 env2
    cases rest with
    | nil =>
      by_cases ht : t ∈ dumpKeys
      · rw [pd_last_key env1 ht, pd_last_key env2 ht]
      · rw [pd_last_skip env1 ht, pd_last_skip env2 ht]
        rfl
    | cons v rest2 =>
      by_cases ht : t ∈ dumpKeys
      · rw [pd_key env1 v rest2 ht, pd_key env2 v rest2 ht]
        exact ih _ _
      · rw [pd_skip env1 v rest2 ht, pd_skip env2 v rest2 ht]
        exact ih _ _

theorem getStr_congr {e1 e2 : Env} (k : String) (h : e1 k = e2 k) :
    getStr e1 k = getStr e2 k := by
  unfold getStr
  rw [h]

theorem getInt_congr {e1 e2 : Env} (k : String) (h : e1 k = e2 k) :
    getInt e1 k = getInt e2 k := by
  unfold getInt
  rw [getStr_congr k h]

/-- The row of one endpoint depends on the environment only through the
21 counter keys. -/
theorem renderRow_agree {e1 e2 : Env} (nm : Option String)
    (h : ∀ k ∈ dumpKeys, e1 k = e2 k) :
    renderRow e1 nm = renderRow e2 nm := by
  unfold renderRow
  rw [getInt_congr "util_dcpr0" (h _ (by decide)),
    getInt_congr "util_dcpr1" (h _ (by decide)),
    getInt_congr "util_dcpr2" (h _ (by decide)),
    getInt_congr "util_pke0" (h _ (by decide)),
    getInt_congr "util_pke1" (h _ (by decide)),
    getInt_congr "util_pke2" (h _ (by decide)),
    getInt_congr "util_pke3" (h _ (by decide)),
    getInt_congr "util_pke4" (h _ (by decide)),
    getInt_congr "util_pke5" (h _ (by decide)),
    getInt_congr "util_cph0" (h _ (by decide)),
    getInt_congr "util_cph1" (h _ (by decide)),
    getInt_congr "util_cph2" (h _ (by decide)),
    getInt_congr "util_cph3" (h _ (by decide)),
    getInt_congr "util_ath0" (h _ (by decide)),
    getInt_congr "util_ath1" (h _ (by decide)),
    getInt_congr "util_ath2" (h _ (by decide)),
    getInt_congr "util_ath3" (h _ (by decide)),
    getInt_congr "util_ucs0" (h _ (by decide)),
    getInt_congr "util_ucs1" (h _ (by decide)),
    getStr_congr "lat_acc_avg" (h _ (by decide)),
    getStr_congr "util_cpr0" (h _ (by decide))]

theorem rowOf_step {env : Env} {nm : Option String} {D : List String} {e : Env}
    (h : parseDump env D = .ok e) :
    rowOf (stepEndpoint env nm D) = (renderRow e nm).toOption := by
  unfold stepEndpoint
  rw [h]
  show rowOf (renderRow e nm >>= fun row => pure (row, e)) = _
  cases hr : renderRow e nm with
  | error e2 => rfl
  | ok r => rfl

theorem rowOf_step_err {env : Env} {nm : Option String} {D : List String}
    (h : parseDump env D = .error ()) :
    rowOf (stepEndpoint env nm D) = none := by
  unfold stepEndpoint
  rw [h]
  rfl

/-- C7 (amended): the `pbar` parse variables persist across endpoints and
ticks, so a snapshot is a function of the current dump alone only when
the current dump contains every expected counter key; in that case two
renders with identical dumps yield identical rows regardless of any
earlier state. -/
theorem claim_C7_amended (env1 env2 : Env) (nm : Option String) (D : List String)
    (hcov : ∀ k ∈ dumpKeys, k ∈ D) :
    rowOf (stepEndpoint env1 nm D) = rowOf (stepEndpoint env2 nm D) := by
  cases hp1 : parseDump env1 D with
  | error e =>
    cases e
    cases hp2 : parseDump env2 D with
    | error e2 =>
      cases e2
      rw [rowOf_step_err hp1, rowOf_step_err hp2]
    | ok e2 =>
      have hind := parse_err_indep D env1 env2
      rw [hp1, hp2] at hind
      simp [isErr] at hind
  | ok e1 =>
    cases hp2 : parseDump env2 D with
    | error e2 =>
      cases e2
      have hind := parse_err_indep D env1 env2
      rw [hp1, hp2] at hind
      simp [isErr] at hind
    | ok e2 =>
      have hagree : ∀ k ∈ dumpKeys, e1 k = e2 k :=
        fun k hk => parse_agree D env1 env2 e1 e2 hp1 hp2 (hcov k hk) hk
      rw [rowOf_step hp1, rowOf_step hp2, renderRow_agree nm hagree]

/-- Witness for C7: a full dump renders the same row from the empty
environment and from a saturated environment. -/
theorem claim_C7_witness :
    rowOf (stepEndpoint emptyEnv (some "qat_dev0") (fullDump "7")) =
      rowOf (stepEndpoint constEnv (some "qat_dev0") (fullDump "7")) :=
  claim_C7_amended emptyEnv constEnv (some "qat_dev0") (fullDump "7") (by decide)

/-- Counterexample to C7 as stated: the second endpoint's dump is empty
(hence identical across the two runs), yet its row differs because the
first endpoint's dump — parsed earlier in the same `pbar` call — left
different values in the shared loop variables. -/
theorem claim_C7_counterexample :
    ([(some "d0", fullDump "99"), (some "d1", ([] : List String))].map Prod.snd).get? 1 =
      ([(some "d0", fullDump "0"), (some "d1", ([] : List String))].map Prod.snd).get? 1 ∧
    (renderTick emptyEnv [(some "d0", fullDump "99"), (some "d1", [])]).1.get? 1 ≠
      (renderTick emptyEnv [(some "d0", fullDump "0"), (some "d1", [])]).1.get? 1 := by
  refine ⟨rfl, ?_⟩
  decide

/- ### Claim C9 -/

/- Step lemmas for the correlation loop. -/

theorem md_nil (p : String) : matchDevs p [] = .ok [] := rfl

theorem md_cons_none (p : String) (d : Device) (ds : List Device)
    (h : d.2 = none) : matchDevs p (d :: ds) = .error () := by
  unfold matchDevs
  rw [h]

theorem md_cons_some (p : String) (d : Device) (ds : List Device) (b : String)
    (h : d.2 = some b) :
    matchDevs p (d :: ds) =
      (matchDevs p ds).map fun rest =>
        if containsStr p b then p :: rest else rest := by
  simp only [matchDevs]
  rw [h]

theorem matchDevs_ok_eq {p : String} : ∀ {devs : List Device} {m : List String},
    matchDevs p devs = .ok m → m = corrMatches devs p := by
  intro devs
  induction devs with
  | nil =>
    intro m h
    have h' : (Except.ok [] : Except Unit (List String)) = .ok m := h
    injection h' with h2
    rw [← h2]
    rfl
  | cons d ds ih =>
    intro m h
    cases hb : d.2 with
    | none =>
      rw [md_cons_none p d ds hb] at h
      simp at h
    | some b =>
      rw [md_cons_some p d ds b hb] at h
      cases hm : matchDevs p ds with
      | error e =>
        rw [hm] at h
        have h' : (Except.error e : Except Unit (List String)) = .ok m := h
        simp at h'
      | ok m2 =>
        rw [hm] at h
        have h2 : (Except.ok (if containsStr p b then p :: m2 else m2) :
            Except Unit (List String)) = .ok m := h
        injection h2 with h3
        rw [← h3, ih hm]
        simp only [corrMatches, List.filter_cons, busHit, hb]
        by_cases hc : containsStr p b <;> simp [hc]

theorem matchDevs_ok_all (p : String) : ∀ (devs : List Device),
    (∀ d ∈ devs, (d.2).isSome) → matchDevs p devs = .ok (corrMatches devs p) := by
  intro devs
  induction devs with
  | nil => intro _; rfl
  | cons d ds ih =>
    intro h
    obtain ⟨b, hb⟩ : ∃ b, d.2 = some b :=
      Option.isSome_iff_exists.mp (h d (List.mem_cons_self d ds))
    have ihds := ih (fun x hx => h x (List.mem_cons_of_mem d hx))
    rw [md_cons_some p d ds b hb, ihds]
    show Except.ok (if containsStr p b then p :: corrMatches ds p else corrMatches ds p) = _
    simp only [corrMatches, List.filter_cons, busHit, hb]
    by_cases hc : containsStr p b <;> simp [hc]

theorem matchDevs_err (p : String) : ∀ (devs : List Device),
    (∃ d ∈ devs, d.2 = none) → matchDevs p devs = .error () := by
  intro devs
  induction devs with
  | nil =>
    intro h
    obtain ⟨d, hd, _⟩ := h
    exact absurd hd (List.not_mem_nil d)
  | cons d ds ih =>
    intro h
    cases hb : d.2 with
    | none => exact md_cons_none p d ds hb
    | some b =>
      obtain ⟨d2, hd2, hn2⟩ := h
      rcases List.mem_cons.mp hd2 with he | hm
      · subst he
        rw [hb] at hn2
        cases hn2
      · rw [md_cons_some p d ds b hb, ih ⟨d2, hm, hn2⟩]
        rfl

theorem correlate_ok_all (devs : List Device) (h : ∀ d ∈ devs, (d.2).isSome) :
    ∀ ps : List String,
    correlate devs ps = .ok (ps.flatMap fun p => corrMatches devs p) := by
  intro ps
  induction ps with
  | nil => rfl
  | cons p ps ih =>
    show (matchDevs p devs).bind (fun first =>
      (correlate devs ps).map fun rest => first ++ rest) = _
    rw [matchDevs_ok_all p devs h, ih, List.flatMap_cons]
    rfl

theorem correlate_err_cons (devs : List Device) (p : String) (ps : List String)
    (h : ∃ d ∈ devs, d.2 = none) : correlate devs (p :: ps) = .error () := by
  show (matchDevs p devs).bind (fun first =>
    (correlate devs ps).map fun rest => first ++ rest) = _
  rw [matchDevs_err p devs h]
  rfl

theorem correlate_ok_eq {devs : List Device} : ∀ {paths sp : List String},
    correlate devs paths = .ok sp →
    sp = paths.flatMap fun p => corrMatches devs p := by
  intro paths
  induction paths with
  | nil =>
    intro sp h
    have h' : (Except.ok [] : Except Unit (List String)) = .ok sp := h
    injection h' with h2
    rw [← h2]
    rfl
  | cons p ps ih =>
    intro sp h
    have h' : (matchDevs p devs).bind (fun first =>
        (correlate devs ps).map fun rest => first ++ rest) = .ok sp := h
    cases hm : matchDevs p devs with
    | error e =>
      rw [hm] at h'
      have h2 : (Except.error e : Except Unit (List String)) = .ok sp := h'
      simp at h2
    | ok first =>
      rw [hm] at h'
      have h2 : (correlate devs ps).map (fun rest => first ++ rest) = .ok sp := h'
      cases hc : correlate devs ps with
      | error e =>
        rw [hc] at h2
        have h3 : (Except.error e : Except Unit (List String)) = .ok sp := h2
        simp at h3
      | ok rest =>
        rw [hc] at h2
        have h3 : (Except.ok (first ++ rest) : Except Unit (List String)) = .ok sp := h2
        injection h3 with h4
        rw [← h4, matchDevs_ok_eq hm, ih hc, List.flatMap_cons]

/-- C9: permuting the counter-path input of the correlation loop yields
the same endpoint multiset (hence the same unordered set); an
input-independent TypeError aside, the loop is order-insensitive. -/
theorem claim_C9_perm (devs : List Device) (ps1 ps2 : List String)
    (hp : ps1.Perm ps2) (l1 : List String)
    (h1 : correlate devs ps1 = .ok l1) :
    ∃ l2, correlate devs ps2 = .ok l2 ∧ l1.Perm l2 := by
  by_cases hall : ∀ d ∈ devs, (d.2).isSome
  · refine ⟨ps2.flatMap (fun p => corrMatches devs p),
      correlate_ok_all devs hall ps2, ?_⟩
    rw [correlate_ok_eq h1]
    exact hp.flatMap_right _
  · push_neg at hall
    obtain ⟨d, hd, hnone⟩ := hall
    have hdn : d.2 = none := by simpa using hnone
    cases ps1 with
    | nil =>
      have hps2 : ps2 = [] := List.perm_nil.mp hp.symm
      subst hps2
      have h1' : (Except.ok [] : Except Unit (List String)) = .ok l1 := h1
      injection h1' with h2
      exact ⟨[], rfl, by rw [← h2]⟩
    | cons p ps =>
      rw [correlate_err_cons devs p ps ⟨d, hd, hdn⟩] at h1
      simp at h1

/-- Witness for C9 on a two-path permutation. -/
theorem claim_C9_witness :
    ∃ l2, correlate [(some "qat_dev0", some "1f")] ["b", "a1f"] = .ok l2 ∧
      List.Perm ["a1f"] l2 :=
  claim_C9_perm [(some "qat_dev0", some "1f")] ["a1f", "b"] ["b", "a1f"]
    (by decide) ["a1f"] (by decide)

/- ### Claim C10 -/

theorem tickInputs_zip : ∀ (devs : List Device) (sp : List String)
    (l : List (Option String × String)),
    tickInputs devs sp = .ok l →
    l = (devs.zip sp).map fun dp => (dp.1.1, dp.2) := by
  intro devs
  induction devs with
  | nil =>
    intro sp l h
    have h' : (Except.ok [] : Except Unit (List (Option String × String))) = .ok l := h
    injection h' with h2
    rw [← h2]
    rfl
  | cons d ds ih =>
    intro sp l h
    cases sp with
    | nil =>
      have h' : (Except.error () : Except Unit (List (Option String × String))) = .ok l := h
      simp at h'
    | cons p ps =>
      have h' : (tickInputs ds ps).map (fun rest => (d.1, p) :: rest) = .ok l := h
      cases ht : tickInputs ds ps with
      | error e =>
        rw [ht] at h'
        have h2 : (Except.error e : Except Unit (List (Option String × String))) = .ok l := h'
        simp at h2
      | ok rest =>
        rw [ht] at h'
        have h2 : (Except.ok ((d.1, p) :: rest) :
            Except Unit (List (Option String × String))) = .ok l := h'
        injection h2 with h3
        rw [← h3, ih ps rest ht]
        rfl

theorem count_corrMatches (devs : List Device) (p q : String) :
    (corrMatches devs q).count p =
      if q = p then (devs.filter fun d => busHit d q).length else 0 := by
  unfold corrMatches
  rw [List.map_const', List.count_replicate]
  simp only [beq_iff_eq]

theorem count_flatMap_corr (devs : List Device) (p : String) :
    ∀ paths : List String,
    ((paths.flatMap fun q => corrMatches devs q).count p) =
      paths.count p * (devs.filter fun d => busHit d p).length := by
  intro paths
  induction paths with
  | nil => simp
  | cons q ps ih =>
    by_cases hqp : q = p
    · subst hqp
      rw [List.flatMap_cons, List.count_append, ih, count_corrMatches,
        List.count_cons_self, if_pos rfl]
      ring
    · rw [List.flatMap_cons, List.count_append, ih, count_corrMatches,
        if_neg hqp, List.count_cons_of_ne (Ne.symm hqp)]
      exact Nat.zero_add _

/-- C10: the correlated collection gains one entry per (device, path)
pair whose bus id occurs in the path — a path matched by k devices
appears k times — and the render loop consumes it positionally, pairing
the i-th device record with the i-th collected path (the zip below IS
that index-by-index pairing). -/
theorem claim_C10_invariant (devs : List Device) (paths sp : List String)
    (h : correlate devs paths = .ok sp) :
    (∀ p : String, sp.count p =
        paths.count p * (devs.filter fun d => busHit d p).length) ∧
    (∀ l, tickInputs devs sp = .ok l →
        l = (devs.zip sp).map fun dp => (dp.1.1, dp.2)) := by
  constructor
  · intro p
    rw [correlate_ok_eq h]
    exact count_flatMap_corr devs p paths
  · intro l hl
    exact tickInputs_zip devs sp l hl

/-- Witness for C10: one path matched by two devices appears twice in the
correlated collection. -/
theorem claim_C10_witness :
    List.count "/sys/p:0000:1f.0/telemetry"
        ["/sys/p:0000:1f.0/telemetry", "/sys/p:0000:1f.0/telemetry"] =
      List.count "/sys/p:0000:1f.0/telemetry" ["/sys/p:0000:1f.0/telemetry"] *
        (([(some "qat_dev0", some "1f"), (some "qat_dev1", some "1f")] :
            List Device).filter
          (fun d => busHit d "/sys/p:0000:1f.0/telemetry")).length :=
  (claim_C10_invariant
    [(some "qat_dev0", some "1f"), (some "qat_dev1", some "1f")]
    ["/sys/p:0000:1f.0/telemetry"]
    ["/sys/p:0000:1f.0/telemetry", "/sys/p:0000:1f.0/telemetry"]
    (by decide)).1 "/sys/p:0000:1f.0/telemetry"

end MonitorQat
